import Mathlib

/-!
Verification of the PID_simulator control-and-physics core.

The JavaScript sources are shallowly embedded as Lean functions:

* `PIDController` and its operations (`calculate`, `reset`, `setGains`,
  `setParameters`, `storeHistory`, `autoTune`) follow
  `src/pid-controller-enhanced.js`.  The controller is modelled over an
  arbitrary linear ordered field so that the same definitions can be run
  on `ℚ` (for concrete evaluation) and combined with the `ℝ`-valued
  physics model.  Decimal literals of the source are embedded as exact
  rationals; the wall-clock bookkeeping (`this.lastTime`, the history
  timestamps) is driven by the external animation loop and is omitted
  from the controller state, matching the spec's rule that the core
  receives its timestep from the driver.
* `BalancingRobot` and its operations (`update`, `reset`,
  `applyDisturbance`, `setTorque`, `getAngleDegrees`) follow the enhanced
  variant in `src/unnamed/part_001`; the legacy variant of
  `src/unnamed/part_000` is embedded as `updateV0`/`resetV0`.  The
  wall-clock read `Date.now()` inside `update` is modelled by passing the
  current time `now` explicitly; `Math.random()` inside the legacy
  `reset` is modelled by passing the drawn sample explicitly.
* `JsVal` is a four-point model of a JavaScript number (a finite value,
  `NaN`, `+Infinity`, `-Infinity`) used to embed the IEEE comparison
  semantics of the degenerate-timestep guards exactly.
-/

set_option maxHeartbeats 1000000
set_option linter.unusedSectionVars false
set_option linter.unreachableTactic false
set_option linter.unusedTactic false
set_option linter.unusedVariables false

/-- One entry of `this.outputHistory` in `src/pid-controller-enhanced.js`
(`storeHistory` pushes `{output, timestamp, components: {p, i, d}}`); the
wall-clock `timestamp` field is omitted. -/
structure OutputEntry (α : Type) where
  output : α
  p : α
  i : α
  d : α
deriving Repr, DecidableEq

/-- The mutable state of the `PIDController` class of
`src/pid-controller-enhanced.js` (gains, accumulators and histories; the
wall-clock fields `lastTime`/`lastUpdateTime` are omitted, see module
doc). -/
structure PIDController (α : Type) where
  kp : α
  ki : α
  kd : α
  setpoint : α
  previousError : α
  integral : α
  lastOutput : α
  filteredDerivative : α
  errorHistory : List α
  outputHistory : List (OutputEntry α)
deriving Repr, DecidableEq

namespace PIDController

variable {α : Type} [LinearOrderedField α]

/-- `this.maxHistoryLength = 1000`. -/
def maxHistoryLength : ℕ := 1000

/-- `this.integralMax = 50`. -/
def integralMax : α := 50

/-- `this.integralMin = -50`. -/
def integralMin : α := -50

/-- `this.outputMax = 100`. -/
def outputMax : α := 100

/-- `this.outputMin = -100`. -/
def outputMin : α := -100

/-- `this.alpha = 0.15`, the derivative low-pass smoothing factor. -/
def alpha : α := 3 / 20

/-- `this.maxRate = 20`, the slew-rate limit (output change per second). -/
def maxRate : α := 20

/-- The constructor `new PIDController(kp, ki, kd)`. -/
def init (kp ki kd : α) : PIDController α :=
  { kp := kp, ki := ki, kd := kd, setpoint := 0, previousError := 0,
    integral := 0, lastOutput := 0, filteredDerivative := 0,
    errorHistory := [], outputHistory := [] }

/-- Lines 71-74 of `calculate`: `if (deltaTime <= 0) deltaTime = 0.001`.
The effective timestep actually used by the remainder of `calculate`. -/
def effDeltaTime (dt : α) : α := if dt ≤ 0 then 1 / 1000 else dt

/-- `error = this.setpoint - currentValue` (after `this.setpoint = setpoint`). -/
def errorOf (setpoint currentValue : α) : α := setpoint - currentValue

/-- The anti-windup clamp
`Math.max(this.integralMin, Math.min(this.integralMax, this.integral))`. -/
def clampI (x : α) : α := max integralMin (min integralMax x)

/-- Integral accumulator after `this.integral += error * deltaTime` followed
by the anti-windup clamp. -/
def newIntegral (s : PIDController α) (sp mv dt : α) : α :=
  clampI (s.integral + errorOf sp mv * effDeltaTime dt)

/-- Filtered derivative after
`this.filteredDerivative = alpha * rawDerivative + (1 - alpha) * this.filteredDerivative`;
the source only updates it under the guard `if (deltaTime > 0)`. -/
def newFilteredDerivative (s : PIDController α) (sp mv dt : α) : α :=
  if 0 < effDeltaTime dt then
    alpha * ((errorOf sp mv - s.previousError) / effDeltaTime dt)
      + (1 - alpha) * s.filteredDerivative
  else s.filteredDerivative

/-- `derivative = this.kd * this.filteredDerivative` under the guard
`if (deltaTime > 0)`, otherwise the initial `let derivative = 0`. -/
def derivativeTerm (s : PIDController α) (sp mv dt : α) : α :=
  if 0 < effDeltaTime dt then s.kd * newFilteredDerivative s sp mv dt else 0

/-- `output = proportional + integral + derivative` before limiting. -/
def rawOutput (s : PIDController α) (sp mv dt : α) : α :=
  s.kp * errorOf sp mv + s.ki * newIntegral s sp mv dt + derivativeTerm s sp mv dt

/-- Slew-rate limiting:
`Math.max(this.lastOutput - maxChange, Math.min(this.lastOutput + maxChange, output))`
with `maxChange = this.maxRate * deltaTime`. -/
def slewOutput (s : PIDController α) (sp mv dt : α) : α :=
  max (s.lastOutput - maxRate * effDeltaTime dt)
    (min (s.lastOutput + maxRate * effDeltaTime dt) (rawOutput s sp mv dt))

/-- Final output clamp
`Math.max(this.outputMin, Math.min(this.outputMax, output))`. -/
def outputOf (s : PIDController α) (sp mv dt : α) : α :=
  max outputMin (min outputMax (slewOutput s sp mv dt))

/-- `storeHistory(error, output, components)`: push onto both histories and
shift both when `errorHistory.length > maxHistoryLength`. -/
def storeHistory (s : PIDController α) (error output p i d : α) :
    PIDController α :=
  if maxHistoryLength < (s.errorHistory ++ [error]).length then
    { s with
      errorHistory := (s.errorHistory ++ [error]).drop 1,
      outputHistory := (s.outputHistory ++ [OutputEntry.mk output p i d]).drop 1 }
  else
    { s with
      errorHistory := s.errorHistory ++ [error],
      outputHistory := s.outputHistory ++ [OutputEntry.mk output p i d] }

/-- `calculate(setpoint, currentValue, deltaTime)` with an explicitly
supplied timestep (the `deltaTime === null` wall-clock path is the
driver's concern).  Returns the updated controller state together with
the returned `output`. -/
def calculate (s : PIDController α) (sp mv dt : α) :
    PIDController α × α :=
  (storeHistory
    { s with
      setpoint := sp,
      previousError := errorOf sp mv,
      integral := newIntegral s sp mv dt,
      filteredDerivative := newFilteredDerivative s sp mv dt,
      lastOutput := outputOf s sp mv dt }
    (errorOf sp mv) (outputOf s sp mv dt)
    (s.kp * errorOf sp mv) (s.ki * newIntegral s sp mv dt)
    (derivativeTerm s sp mv dt),
   outputOf s sp mv dt)

/-- `reset()` of `src/pid-controller-enhanced.js`: zero the accumulators and
clear both histories (gains and setpoint are untouched; the wall-clock
`this.lastTime = Date.now()` is omitted from the model). -/
def reset (s : PIDController α) : PIDController α :=
  { s with
    previousError := 0, integral := 0, filteredDerivative := 0,
    errorHistory := [], outputHistory := [], lastOutput := 0 }

/-- `setParameters(kp, ki, kd)`. -/
def setParameters (s : PIDController α) (kp ki kd : α) : PIDController α :=
  { s with kp := kp, ki := ki, kd := kd }

/-- `PIDController.prototype.setGains` (attached in the `window` export
block): identical field assignments to `setParameters`. -/
def setGains (s : PIDController α) (kp ki kd : α) : PIDController α :=
  { s with kp := kp, ki := ki, kd := kd }

end PIDController

/-- External operations a client may perform on a `PIDController`
between or during ticks (used to state invariants over arbitrary call
sequences). -/
inductive PIDOp (α : Type) where
  | calcOp (sp mv dt : α)
  | gainsOp (kp ki kd : α)
  | paramsOp (kp ki kd : α)
  | resetOp
  | storeOp (e o p i d : α)

namespace PIDController

variable {α : Type} [LinearOrderedField α]

/-- Apply one external operation. -/
def applyOp (s : PIDController α) : PIDOp α → PIDController α
  | .calcOp sp mv dt => (calculate s sp mv dt).1
  | .gainsOp kp ki kd => setGains s kp ki kd
  | .paramsOp kp ki kd => setParameters s kp ki kd
  | .resetOp => reset s
  | .storeOp e o p i d => storeHistory s e o p i d

/-- Run a sequence of external operations. -/
def run (s : PIDController α) (ops : List (PIDOp α)) : PIDController α :=
  ops.foldl applyOp s

/-- The implicit ring-buffer invariant of the two histories. -/
def historyInvariant (s : PIDController α) : Prop :=
  s.errorHistory.length = s.outputHistory.length ∧
    s.errorHistory.length ≤ maxHistoryLength

end PIDController

/-- A JavaScript number as seen by the degenerate-timestep guards: a
finite value (embedded as a rational) or one of the special values
`NaN`, `+Infinity`, `-Infinity`. -/
inductive JsVal where
  | num (q : ℚ)
  | nan
  | posInf
  | negInf
deriving Repr, DecidableEq

/-- IEEE semantics of the JavaScript test `x <= 0`: false for `NaN`
(every comparison with `NaN` is false) and for `+Infinity`, true for
`-Infinity`, and the ordinary order test for finite values. -/
def jsLe0 : JsVal → Bool
  | .num q => decide (q ≤ 0)
  | .nan => false
  | .posInf => false
  | .negInf => true

/-- `isNaN(x)`. -/
def jsIsNaN : JsVal → Bool
  | .nan => true
  | _ => false

/-- Lines 71-74 of `PIDController.calculate`
(`if (deltaTime <= 0) { deltaTime = 0.001; }`) evaluated on a JavaScript
number: the value of `deltaTime` after the guard. -/
def substDeltaTime (d : JsVal) : JsVal :=
  if jsLe0 d then .num (1 / 1000) else d

/-- The guard of the enhanced `BalancingRobot.update`
(`src/unnamed/part_001` line 475): `isNaN(deltaTime) || deltaTime <= 0`
makes the step return without touching the physics state. -/
def updateGuardV1 (d : JsVal) : Bool := jsIsNaN d || jsLe0 d

/-- The guard of the legacy `BalancingRobot.update`
(`src/unnamed/part_000` line 79): `deltaTime <= 0` only. -/
def updateGuardV0 (d : JsVal) : Bool := jsLe0 d

/-- One element of the `peaks` array collected by `autoTune`
(`{time, value, period}`). -/
structure Peak where
  time : ℚ
  value : ℚ
  period : ℚ
deriving Repr, DecidableEq

/-- The object returned by `autoTune`. -/
structure TuneResult where
  success : Bool
  cycles : ℕ
  period : ℚ
  amplitude : ℚ
  kp : ℚ
  ki : ℚ
  kd : ℚ
deriving Repr, DecidableEq

/-- `Math.PI` as the exact value of the IEEE double nearest to π. -/
def jsPI : ℚ := 884279719003555 / 281474976710656

namespace PIDController

/-- The zero-crossing bookkeeping of one `autoTune` loop iteration
(lines 227-238 of `src/pid-controller-enhanced.js`): given the loop
index `i`, the previous crossing index, the collected peaks and the
previous and current outputs, return the updated peaks and crossing
index.  A peak is recorded when `lastOutput * output < 0` and the period
`(i - lastCrossing) * 0.02` exceeds `0.1`. -/
def tuneIter (i lastCross : ℕ) (peaks : List Peak) (lastOut output : ℚ) :
    List Peak × ℕ :=
  if lastOut * output < 0 then
    (if 1 / 10 < ((i : ℚ) - (lastCross : ℚ)) * (1 / 50) then
        peaks ++ [Peak.mk ((i : ℚ) * (1 / 50)) output
          (((i : ℚ) - (lastCross : ℚ)) * (1 / 50))]
      else peaks,
     i)
  else (peaks, lastCross)

/-- The `for (let i = 0; i < 1000; i++)` experiment loop of `autoTune`:
each iteration runs `calculate(setpoint, processVariable, 0.02)`,
updates the crossing bookkeeping, and breaks early once
`peaks.length >= cycles * 2`.  `fuel` counts the remaining iterations
(initially 1000). -/
def autoTuneGo (sp pv : ℚ) (cycles : ℕ) :
    ℕ → ℕ → PIDController ℚ → List Peak → ℚ → ℕ →
      PIDController ℚ × List Peak
  | 0, _, s, peaks, _, _ => (s, peaks)
  | fuel + 1, i, s, peaks, lastOut, lastCross =>
    if cycles * 2 ≤
        (tuneIter i lastCross peaks lastOut (calculate s sp pv (1 / 50)).2).1.length then
      ((calculate s sp pv (1 / 50)).1,
       (tuneIter i lastCross peaks lastOut (calculate s sp pv (1 / 50)).2).1)
    else
      autoTuneGo sp pv cycles fuel (i + 1) (calculate s sp pv (1 / 50)).1
        (tuneIter i lastCross peaks lastOut (calculate s sp pv (1 / 50)).2).1
        (calculate s sp pv (1 / 50)).2
        (tuneIter i lastCross peaks lastOut (calculate s sp pv (1 / 50)).2).2

/-- Lines 247-267 of `autoTune`: when at least 4 peaks were collected,
derive new gains by the damped Ziegler-Nichols rule from the average
period and amplitude (`kp0` is the snapshot `const kp = this.kp` taken
at entry); otherwise leave the state unchanged. -/
def applyZN (kp0 : ℚ) (s1 : PIDController ℚ) (peaks : List Peak) :
    PIDController ℚ :=
  if 4 ≤ peaks.length then
    { s1 with
      kp := (3 / 5) *
        (4 * kp0 / (jsPI * ((peaks.tail.map fun p => |p.value|).sum / ((peaks.length : ℚ) - 1)))),
      ki := (6 / 5) *
        (4 * kp0 / (jsPI * ((peaks.tail.map fun p => |p.value|).sum / ((peaks.length : ℚ) - 1)))) /
        (((peaks.zip peaks.tail).map fun pr => pr.2.time - pr.1.time).sum /
          (((peaks.zip peaks.tail).map fun pr => pr.2.time - pr.1.time).length : ℚ)),
      kd := (3 / 40) *
        (4 * kp0 / (jsPI * ((peaks.tail.map fun p => |p.value|).sum / ((peaks.length : ℚ) - 1)))) *
        (((peaks.zip peaks.tail).map fun pr => pr.2.time - pr.1.time).sum /
          (((peaks.zip peaks.tail).map fun pr => pr.2.time - pr.1.time).length : ℚ)) }
  else s1

/-- The result object built at the end of `autoTune` (lines 274-285);
`s3` is the controller state after the gain update and restore. -/
def tuneSummary (s3 : PIDController ℚ) (peaks : List Peak) : TuneResult :=
  { success := decide (4 ≤ peaks.length),
    cycles := peaks.length / 2,
    period :=
      if 2 ≤ peaks.length then
        ((peaks.getLastD (Peak.mk 0 0 0)).time - (peaks.headD (Peak.mk 0 0 0)).time) /
          ((peaks.length : ℚ) - 1)
      else 0,
    amplitude :=
      if 0 < peaks.length then
        (peaks.map fun p => |p.value|).sum / (peaks.length : ℚ)
      else 0,
    kp := s3.kp, ki := s3.ki, kd := s3.kd }

/-- `autoTune(processVariable, setpoint, cycles)`: snapshot the live
accumulators, run the bounded experiment loop, possibly update the gains
(Ziegler-Nichols branch), restore the accumulators, and return the new
state with the result object. -/
def autoTune (s : PIDController ℚ) (processVariable setpoint : ℚ)
    (cycles : ℕ) : PIDController ℚ × TuneResult :=
  ({ applyZN s.kp (autoTuneGo setpoint processVariable cycles 1000 0 s [] 0 0).1
       (autoTuneGo setpoint processVariable cycles 1000 0 s [] 0 0).2 with
     integral := s.integral,
     filteredDerivative := s.filteredDerivative,
     previousError := s.previousError },
   tuneSummary
     { applyZN s.kp (autoTuneGo setpoint processVariable cycles 1000 0 s [] 0 0).1
         (autoTuneGo setpoint processVariable cycles 1000 0 s [] 0 0).2 with
       integral := s.integral,
       filteredDerivative := s.filteredDerivative,
       previousError := s.previousError }
     (autoTuneGo setpoint processVariable cycles 1000 0 s [] 0 0).2)

end PIDController

/-- One point of the rendering trail (`{x, y, time}`); `time` is the
`Date.now()` millisecond timestamp of the pushing tick. -/
structure TrailPoint where
  x : ℝ
  y : ℝ
  time : ℝ

/-- The mutable state of the `BalancingRobot` class (both variants share
this shape).  The physical constants set once by the constructor and
never reassigned anywhere in the repository (`mass`, `length`,
`gravity`, `friction`, `disturbanceDecay`, `maxTrailLength`, `scale`,
and the fixed visual dimensions) are modelled as the definitions below
instead of fields; `baseX`/`baseY` depend on the canvas handed to the
constructor and stay fields.  `lastTime` is the `Date.now()` value of
the previous `update` call. -/
structure BalancingRobot where
  angle : ℝ
  angularVelocity : ℝ
  angularAcceleration : ℝ
  position : ℝ
  velocity : ℝ
  torque : ℝ
  disturbanceForce : ℝ
  groundOffset : ℝ
  groundSpeed : ℝ
  lastTime : ℝ
  trail : List TrailPoint
  baseX : ℝ
  baseY : ℝ

namespace BalancingRobot

/-- `this.mass = 1.0`. -/
def mass : ℝ := 1

/-- `this.length = 0.5`. -/
noncomputable def length : ℝ := 1 / 2

/-- `this.gravity = 9.81`. -/
noncomputable def gravity : ℝ := 981 / 100

/-- `this.friction = 0.1`. -/
noncomputable def friction : ℝ := 1 / 10

/-- `this.disturbanceDecay = 0.95`. -/
noncomputable def disturbanceDecay : ℝ := 19 / 20

/-- `this.maxTrailLength = 100`. -/
def maxTrailLength : ℕ := 100

/-- The constructor state: all dynamic fields zero, trail empty;
`baseX = canvas.width / 2`, `baseY = canvas.height - 100`, and the
construction-time clock reading are passed in. -/
def init (baseX baseY now : ℝ) : BalancingRobot :=
  { angle := 0, angularVelocity := 0, angularAcceleration := 0,
    position := 0, velocity := 0, torque := 0, disturbanceForce := 0,
    groundOffset := 0, groundSpeed := 0, lastTime := now, trail := [],
    baseX := baseX, baseY := baseY }

/-- The JavaScript remainder `a % b` on real values: `a - b * t` where
`t` is `a / b` truncated toward zero (the result keeps the sign of the
dividend). -/
noncomputable def jsRem (a b : ℝ) : ℝ :=
  a - b * (if 0 ≤ a / b then ((⌊a / b⌋ : ℤ) : ℝ) else ((⌈a / b⌉ : ℤ) : ℝ))

/-- `applyDisturbance(force)`: overwrite `this.disturbanceForce`. -/
def applyDisturbance (r : BalancingRobot) (force : ℝ) : BalancingRobot :=
  { r with disturbanceForce := force }

/-- `setTorque(torque)`. -/
def setTorque (r : BalancingRobot) (torque : ℝ) : BalancingRobot :=
  { r with torque := torque }

/-- `getAngleDegrees()`: `this.angle * 180 / Math.PI`. -/
noncomputable def getAngleDegrees (r : BalancingRobot) : ℝ :=
  r.angle * 180 / Real.pi

/-- The body of the enhanced `BalancingRobot.update`
(`src/unnamed/part_001` lines 480-530) once the guard has passed: the
inverted-pendulum step, lean-driven velocity, ground animation,
disturbance decay, the angle clamp to `[-π/2, π/2]`, and the trail
bookkeeping (push, cap at 100 points, drop points older than 3000 ms).
`r` already carries `lastTime := now`. -/
noncomputable def stepPhysics (r : BalancingRobot) (now deltaTime : ℝ) :
    BalancingRobot :=
  let angularAcceleration :=
    (gravity / length) * Real.sin r.angle
      - (friction / (mass * length * length)) * r.angularVelocity
      + r.torque / (mass * length * length)
      + r.disturbanceForce / (mass * length * length)
  let angularVelocity := r.angularVelocity + angularAcceleration * deltaTime
  let angleRaw := r.angle + angularVelocity * deltaTime
  let velocity :=
    (r.velocity + (Real.sin angleRaw * 5 - r.velocity) * 2 * deltaTime) * (49 / 50)
  let groundSpeed := -velocity * 20
  let groundOffset := jsRem (r.groundOffset + groundSpeed * deltaTime) 100
  let disturbanceForce := r.disturbanceForce * disturbanceDecay
  let angle := max (-(Real.pi / 2)) (min (Real.pi / 2) angleRaw)
  let trail1 :=
    r.trail ++ [TrailPoint.mk (r.baseX + Real.sin angle * 50) (r.baseY + 20) now]
  let trail2 := if maxTrailLength < trail1.length then trail1.drop 1 else trail1
  { r with
    angle := angle,
    angularVelocity := angularVelocity,
    angularAcceleration := angularAcceleration,
    velocity := velocity,
    groundSpeed := groundSpeed,
    groundOffset := groundOffset,
    disturbanceForce := disturbanceForce,
    trail := trail2.filter fun p => decide (now - p.time < 3000) }

/-- The enhanced `BalancingRobot.update` (`src/unnamed/part_001`): the
internal `Date.now()` read is passed in as `now`;
`deltaTime = Math.min((now - this.lastTime) / 1000, 0.1)`,
`this.lastTime = now` happens before the guard, and
`deltaTime <= 0` (or `NaN`, see `updateGuardV1`) makes the call return
with only `lastTime` touched. -/
noncomputable def update (r : BalancingRobot) (now : ℝ) : BalancingRobot :=
  if min ((now - r.lastTime) / 1000) (1 / 10) ≤ 0 then
    { r with lastTime := now }
  else
    stepPhysics { r with lastTime := now } now
      (min ((now - r.lastTime) / 1000) (1 / 10))

/-- The body of the legacy `BalancingRobot.update`
(`src/unnamed/part_000` lines 81-123) once the guard has passed; it
differs from the enhanced variant in the lateral dynamics (gravity-driven
horizontal acceleration and a real `position` integration), ground
scaling, trail geometry, and a 2000 ms trail timeout. -/
noncomputable def stepPhysicsV0 (r : BalancingRobot) (now deltaTime : ℝ) :
    BalancingRobot :=
  let angularAcceleration :=
    (gravity / length) * Real.sin r.angle
      - (friction / (mass * length * length)) * r.angularVelocity
      + r.torque / (mass * length * length)
      + r.disturbanceForce / (mass * length * length)
  let angularVelocity := r.angularVelocity + angularAcceleration * deltaTime
  let angleRaw := r.angle + angularVelocity * deltaTime
  let velocity :=
    (r.velocity + Real.sin angleRaw * gravity * (1 / 2) * deltaTime) * (49 / 50)
  let position := r.position + velocity * deltaTime
  let groundSpeed := -velocity * (3 / 10)
  let groundOffset := jsRem (r.groundOffset + groundSpeed * deltaTime * 50) 100
  let disturbanceForce := r.disturbanceForce * disturbanceDecay
  let angle := max (-(Real.pi / 2)) (min (Real.pi / 2) angleRaw)
  let trail1 :=
    r.trail ++ [TrailPoint.mk (r.baseX + position * 10) r.baseY now]
  let trail2 := if maxTrailLength < trail1.length then trail1.drop 1 else trail1
  { r with
    angle := angle,
    angularVelocity := angularVelocity,
    angularAcceleration := angularAcceleration,
    velocity := velocity,
    position := position,
    groundSpeed := groundSpeed,
    groundOffset := groundOffset,
    disturbanceForce := disturbanceForce,
    trail := trail2.filter fun p => decide (now - p.time < 2000) }

/-- The legacy `BalancingRobot.update` (`src/unnamed/part_000`):
`deltaTime = Math.min((now - this.lastTime) / 1000, 0.02)` and the guard
is `deltaTime <= 0` alone (`updateGuardV0`). -/
noncomputable def updateV0 (r : BalancingRobot) (now : ℝ) : BalancingRobot :=
  if min ((now - r.lastTime) / 1000) (1 / 50) ≤ 0 then
    { r with lastTime := now }
  else
    stepPhysicsV0 { r with lastTime := now } now
      (min ((now - r.lastTime) / 1000) (1 / 50))

/-- The enhanced `reset()` (`src/unnamed/part_001` lines 436-460): every
dynamic field restored to the fixed upright initial condition, the trail
cleared, and `lastTime` set to the current clock reading.  (The chained
`pidController.reset()` call is modelled separately by
`PIDController.reset`.) -/
def reset (r : BalancingRobot) (now : ℝ) : BalancingRobot :=
  { r with
    angle := 0, angularVelocity := 0, angularAcceleration := 0,
    position := 0, velocity := 0, torque := 0, disturbanceForce := 0,
    groundOffset := 0, groundSpeed := 0, trail := [], lastTime := now }

/-- The legacy `reset()` (`src/unnamed/part_000` lines 52-64):
`this.angle = Math.random() * 0.2 - 0.1` re-randomizes the tilt; the
`Math.random()` sample is passed in as `rand`. -/
noncomputable def resetV0 (r : BalancingRobot) (rand now : ℝ) : BalancingRobot :=
  { r with
    angle := rand * (1 / 5) - 1 / 10, angularVelocity := 0,
    angularAcceleration := 0, position := 0, velocity := 0, torque := 0,
    disturbanceForce := 0, groundOffset := 0, groundSpeed := 0,
    trail := [], lastTime := now }

/-- Run a sequence of `update` calls at the given clock readings. -/
noncomputable def runUpdates (r : BalancingRobot) (ts : List ℝ) :
    BalancingRobot :=
  ts.foldl update r

/-- The clock readings `ts` drive a run of non-degenerate steps: each
reading is strictly later than the `lastTime` the robot carries when the
corresponding `update` fires, so every step passes the `deltaTime <= 0`
guard. -/
def stepsValid : BalancingRobot → List ℝ → Prop
  | _, [] => True
  | r, t :: ts => r.lastTime < t ∧ stepsValid (update r t) ts

/-- The spec-level `RobotState` record (`getState()` without the derived
`angleDegrees`): the physical fields owned by the model, excluding the
wall-clock bookkeeping and the visualization-only fields. -/
def physStateOf (r : BalancingRobot) : ℝ × ℝ × ℝ × ℝ × ℝ × ℝ × ℝ :=
  (r.angle, r.angularVelocity, r.angularAcceleration, r.position,
   r.velocity, r.torque, r.disturbanceForce)

/-- `physStateOf` without the `angle` component (used to compare the
legacy `reset` results, whose angle is re-randomized). -/
def physStateExceptAngle (r : BalancingRobot) : ℝ × ℝ × ℝ × ℝ × ℝ × ℝ :=
  (r.angularVelocity, r.angularAcceleration, r.position,
   r.velocity, r.torque, r.disturbanceForce)

end BalancingRobot

/-- The two collaborating components advanced by the external animation
loop. -/
structure SimState where
  robot : BalancingRobot
  pid : PIDController ℝ

/-- The externally supplied inputs of one animation tick: the clock
reading, the controller timestep, an optional gain change requested
between ticks, and an optional disturbance injection. -/
structure TickInput where
  now : ℝ
  dt : ℝ
  gains : Option (ℝ × ℝ × ℝ)
  disturb : Option ℝ

/-- One animation tick, following `PIDSimulatorApp.animate`
(`src/unnamed/part_001` lines 245-281): apply any pending gain change
and disturbance injection, advance the physics
(`this.robot.update()`), read `getState().angleDegrees`, evaluate the
controller (`this.pidController.update(angleDegrees)`, i.e.
`calculate(this.setpoint, angleDegrees, dt)` with the timestep supplied
by the driver), and command the resulting torque
(`this.robot.setTorque(...)`). -/
noncomputable def tick (s : SimState) (inp : TickInput) : SimState :=
  let pid0 :=
    match inp.gains with
    | some g => PIDController.setGains s.pid g.1 g.2.1 g.2.2
    | none => s.pid
  let rob0 :=
    match inp.disturb with
    | some f => BalancingRobot.applyDisturbance s.robot f
    | none => s.robot
  let rob1 := BalancingRobot.update rob0 inp.now
  { robot :=
      BalancingRobot.setTorque rob1
        (PIDController.calculate pid0 pid0.setpoint
          (BalancingRobot.getAngleDegrees rob1) inp.dt).2,
    pid :=
      (PIDController.calculate pid0 pid0.setpoint
        (BalancingRobot.getAngleDegrees rob1) inp.dt).1 }

/-- The trajectory of per-tick states produced by a run (initial state
included). -/
noncomputable def trajectory (s : SimState) (ins : List TickInput) :
    List SimState :=
  List.scanl tick s ins

/-- A concrete robot as constructed against an 800x480 canvas at clock 0. -/
def robot0 : BalancingRobot := BalancingRobot.init 400 380 0

/-- A concrete simulator state: the robot together with the controller
the app constructs (`new window.PIDController(2.0, 0.1, 0.5)`). -/
noncomputable def simState0 : SimState :=
  { robot := robot0, pid := PIDController.init 2 (1 / 10) (1 / 2) }

/-- A concrete tick input. -/
noncomputable def tickInput0 : TickInput :=
  { now := 16, dt := 4 / 250, gains := none, disturb := none }

namespace PIDController

variable {α : Type} [LinearOrderedField α]

theorem effDeltaTime_pos (dt : α) : 0 < effDeltaTime dt := by
  unfold effDeltaTime
  split
  · norm_num
  · exact lt_of_not_le (by assumption)

theorem clampI_mem (x : α) :
    integralMin ≤ clampI x ∧ clampI x ≤ integralMax := by
  unfold clampI integralMin integralMax
  exact ⟨le_max_left _ _, max_le (by norm_num) (min_le_left _ _)⟩

@[simp] theorem storeHistory_kp (s : PIDController α) (e o p i d : α) :
    (storeHistory s e o p i d).kp = s.kp := by
  unfold storeHistory; split <;> rfl

@[simp] theorem storeHistory_ki (s : PIDController α) (e o p i d : α) :
    (storeHistory s e o p i d).ki = s.ki := by
  unfold storeHistory; split <;> rfl

@[simp] theorem storeHistory_kd (s : PIDController α) (e o p i d : α) :
    (storeHistory s e o p i d).kd = s.kd := by
  unfold storeHistory; split <;> rfl

@[simp] theorem storeHistory_setpoint (s : PIDController α) (e o p i d : α) :
    (storeHistory s e o p i d).setpoint = s.setpoint := by
  unfold storeHistory; split <;> rfl

@[simp] theorem storeHistory_previousError (s : PIDController α) (e o p i d : α) :
    (storeHistory s e o p i d).previousError = s.previousError := by
  unfold storeHistory; split <;> rfl

@[simp] theorem storeHistory_integral (s : PIDController α) (e o p i d : α) :
    (storeHistory s e o p i d).integral = s.integral := by
  unfold storeHistory; split <;> rfl

@[simp] theorem storeHistory_filteredDerivative (s : PIDController α) (e o p i d : α) :
    (storeHistory s e o p i d).filteredDerivative = s.filteredDerivative := by
  unfold storeHistory; split <;> rfl

@[simp] theorem storeHistory_lastOutput (s : PIDController α) (e o p i d : α) :
    (storeHistory s e o p i d).lastOutput = s.lastOutput := by
  unfold storeHistory; split <;> rfl

@[simp] theorem calculate_snd (s : PIDController α) (sp mv dt : α) :
    (calculate s sp mv dt).2 = outputOf s sp mv dt := rfl

@[simp] theorem calculate_fst_kp (s : PIDController α) (sp mv dt : α) :
    (calculate s sp mv dt).1.kp = s.kp := by
  unfold calculate; simp

@[simp] theorem calculate_fst_ki (s : PIDController α) (sp mv dt : α) :
    (calculate s sp mv dt).1.ki = s.ki := by
  unfold calculate; simp

@[simp] theorem calculate_fst_kd (s : PIDController α) (sp mv dt : α) :
    (calculate s sp mv dt).1.kd = s.kd := by
  unfold calculate; simp

@[simp] theorem calculate_fst_setpoint (s : PIDController α) (sp mv dt : α) :
    (calculate s sp mv dt).1.setpoint = sp := by
  unfold calculate; simp

@[simp] theorem calculate_fst_previousError (s : PIDController α) (sp mv dt : α) :
    (calculate s sp mv dt).1.previousError = errorOf sp mv := by
  unfold calculate; simp

@[simp] theorem calculate_fst_integral (s : PIDController α) (sp mv dt : α) :
    (calculate s sp mv dt).1.integral = newIntegral s sp mv dt := by
  unfold calculate; simp

@[simp] theorem calculate_fst_filteredDerivative (s : PIDController α) (sp mv dt : α) :
    (calculate s sp mv dt).1.filteredDerivative = newFilteredDerivative s sp mv dt := by
  unfold calculate; simp

@[simp] theorem calculate_fst_lastOutput (s : PIDController α) (sp mv dt : α) :
    (calculate s sp mv dt).1.lastOutput = outputOf s sp mv dt := by
  unfold calculate; simp

theorem run_cons (s : PIDController α) (op : PIDOp α) (ops : List (PIDOp α)) :
    run s (op :: ops) = run (applyOp s op) ops := rfl

theorem integral_band_applyOp (s : PIDController α) (op : PIDOp α)
    (h1 : integralMin ≤ s.integral) (h2 : s.integral ≤ integralMax) :
    integralMin ≤ (applyOp s op).integral ∧ (applyOp s op).integral ≤ integralMax := by
  cases op with
  | calcOp sp mv dt =>
    simpa [applyOp, newIntegral] using clampI_mem (s.integral + errorOf sp mv * effDeltaTime dt)
  | gainsOp kp ki kd => exact ⟨h1, h2⟩
  | paramsOp kp ki kd => exact ⟨h1, h2⟩
  | resetOp =>
    constructor <;> simp [applyOp, reset, integralMin, integralMax]
  | storeOp e o p i d => simpa [applyOp] using ⟨h1, h2⟩

theorem integral_band_run (s : PIDController α) (ops : List (PIDOp α))
    (h1 : integralMin ≤ s.integral) (h2 : s.integral ≤ integralMax) :
    integralMin ≤ (run s ops).integral ∧ (run s ops).integral ≤ integralMax := by
  induction ops generalizing s with
  | nil => exact ⟨h1, h2⟩
  | cons op rest ih =>
    rw [run_cons]
    obtain ⟨g1, g2⟩ := integral_band_applyOp s op h1 h2
    exact ih _ g1 g2

end PIDController

/-- A generic fact about the nested clamps of `calculate`: slew limiting
around `L` by `mc ≥ 0` followed by clamping into `[m, M] ∋ L` lands in
`[m, M]` and within `mc` of `L`. -/
theorem slew_clamp_bounds {α : Type} [LinearOrderedField α]
    (L mc x m M : α) (hmc : 0 ≤ mc) (hmL : m ≤ L) (hLM : L ≤ M) :
    (m ≤ max m (min M (max (L - mc) (min (L + mc) x))) ∧
      max m (min M (max (L - mc) (min (L + mc) x))) ≤ M) ∧
    |max m (min M (max (L - mc) (min (L + mc) x))) - L| ≤ mc := by
  have h1 : L - mc ≤ max (L - mc) (min (L + mc) x) := le_max_left _ _
  have h2 : max (L - mc) (min (L + mc) x) ≤ L + mc :=
    max_le (by linarith) (min_le_left _ _)
  have g1 : m ≤ max m (min M (max (L - mc) (min (L + mc) x))) := le_max_left _ _
  have g2 : max m (min M (max (L - mc) (min (L + mc) x))) ≤ M :=
    max_le (le_trans hmL hLM) (min_le_left _ _)
  have g3 : L - mc ≤ max m (min M (max (L - mc) (min (L + mc) x))) :=
    le_trans (le_min (by linarith) h1) (le_max_right _ _)
  have g4 : max m (min M (max (L - mc) (min (L + mc) x))) ≤ L + mc :=
    max_le (by linarith) (le_trans (min_le_right _ _) h2)
  exact ⟨⟨g1, g2⟩, abs_le.mpr ⟨by linarith, by linarith⟩⟩

/-- Claim C1: for every call to `PIDController.calculate` from a state
whose `lastOutput` lies in `[outputMin, outputMax]`, the returned output
lies in `[outputMin, outputMax]` and differs from the previous
`lastOutput` by at most `maxRate * dt`, where `dt` is the effective
timestep after the degenerate-`dt` substitution. -/
theorem calculate_output_within_limits_and_slew {α : Type} [LinearOrderedField α]
    (s : PIDController α) (sp mv dt : α)
    (h1 : PIDController.outputMin ≤ s.lastOutput)
    (h2 : s.lastOutput ≤ PIDController.outputMax) :
    (PIDController.outputMin ≤ (PIDController.calculate s sp mv dt).2 ∧
      (PIDController.calculate s sp mv dt).2 ≤ PIDController.outputMax) ∧
    |(PIDController.calculate s sp mv dt).2 - s.lastOutput| ≤
      PIDController.maxRate * PIDController.effDeltaTime dt := by
  have hmc : (0 : α) ≤ PIDController.maxRate * PIDController.effDeltaTime dt :=
    mul_nonneg (by unfold PIDController.maxRate; norm_num)
      (PIDController.effDeltaTime_pos dt).le
  have h1l : (-100 : α) ≤ s.lastOutput := h1
  have h2l : s.lastOutput ≤ (100 : α) := h2
  have key := slew_clamp_bounds s.lastOutput
    (PIDController.maxRate * PIDController.effDeltaTime dt)
    (PIDController.rawOutput s sp mv dt) (-100 : α) (100 : α) hmc h1l h2l
  simpa only [PIDController.calculate_snd, PIDController.outputOf,
    PIDController.slewOutput, PIDController.outputMin,
    PIDController.outputMax] using key

/-- A concrete controller state: the constructor defaults
`new PIDController(2.5, 0.1, 0.8)` over `ℚ`. -/
def pidQ0 : PIDController ℚ := PIDController.init (5 / 2) (1 / 10) (4 / 5)

/-- Witness for C1 at a concrete state and input. -/
theorem calculate_output_within_limits_and_slew_witness :
    (PIDController.outputMin ≤ pidQ0.lastOutput ∧
      pidQ0.lastOutput ≤ PIDController.outputMax) ∧
    ((PIDController.outputMin ≤ (PIDController.calculate pidQ0 0 5 (1 / 50)).2 ∧
      (PIDController.calculate pidQ0 0 5 (1 / 50)).2 ≤ PIDController.outputMax) ∧
     |(PIDController.calculate pidQ0 0 5 (1 / 50)).2 - pidQ0.lastOutput| ≤
       PIDController.maxRate * PIDController.effDeltaTime ((1 : ℚ) / 50)) :=
  ⟨⟨by decide, by decide⟩,
   calculate_output_within_limits_and_slew pidQ0 0 5 (1 / 50) (by decide) (by decide)⟩

/-- Claim C3: across any sequence of `calculate` calls, with arbitrary
error magnitudes, timesteps, and interleaved gain changes via
`setGains`/`setParameters` (with `reset` and direct `storeHistory` calls
also allowed), the integral accumulator `this.integral` stays in
`[integralMin, integralMax]` after every call; moreover the clamp is
applied to the accumulator itself — the post-call accumulator is
exactly `clampI (integral + error * dt)`, an expression independent of
`ki` (the `ki`-scaled term is formed from the already-clamped
accumulator). -/
theorem integral_accumulator_clamped {α : Type} [LinearOrderedField α]
    (s : PIDController α) (ops : List (PIDOp α))
    (h1 : PIDController.integralMin ≤ s.integral)
    (h2 : s.integral ≤ PIDController.integralMax) :
    (PIDController.integralMin ≤ (PIDController.run s ops).integral ∧
      (PIDController.run s ops).integral ≤ PIDController.integralMax) ∧
    ∀ sp mv dt : α,
      (PIDController.calculate s sp mv dt).1.integral =
        PIDController.clampI (s.integral + (sp - mv) * PIDController.effDeltaTime dt) := by
  refine ⟨PIDController.integral_band_run s ops h1 h2, fun sp mv dt => ?_⟩
  simp [PIDController.calculate_fst_integral, PIDController.newIntegral,
    PIDController.errorOf]

/-- Witness for C3 at a concrete state and operation sequence. -/
theorem integral_accumulator_clamped_witness :
    (PIDController.integralMin ≤ pidQ0.integral ∧
      pidQ0.integral ≤ PIDController.integralMax) ∧
    ((PIDController.integralMin ≤
        (PIDController.run pidQ0
          [PIDOp.calcOp 0 1000 1, PIDOp.gainsOp 9 9 9,
           PIDOp.calcOp 0 1000 1]).integral ∧
      (PIDController.run pidQ0
          [PIDOp.calcOp 0 1000 1, PIDOp.gainsOp 9 9 9,
           PIDOp.calcOp 0 1000 1]).integral ≤ PIDController.integralMax) ∧
     ∀ sp mv dt : ℚ,
       (PIDController.calculate pidQ0 sp mv dt).1.integral =
         PIDController.clampI (pidQ0.integral + (sp - mv) * PIDController.effDeltaTime dt)) :=
  ⟨⟨by decide, by decide⟩,
   integral_accumulator_clamped pidQ0
     [PIDOp.calcOp 0 1000 1, PIDOp.gainsOp 9 9 9, PIDOp.calcOp 0 1000 1]
     (by decide) (by decide)⟩

/-- Counterexample for C4 as frozen: the claim says a non-finite `dt` is
also substituted by `0.001`, but the JavaScript guard `deltaTime <= 0`
is false for `NaN` (and for `+Infinity`), so a `NaN` timestep passes
through unsubstituted. -/
theorem nan_dt_not_substituted :
    substDeltaTime JsVal.nan ≠ JsVal.num (1 / 1000) ∧
    substDeltaTime JsVal.nan = JsVal.nan ∧
    substDeltaTime JsVal.posInf = JsVal.posInf := by
  refine ⟨?_, rfl, rfl⟩
  simp [substDeltaTime, jsLe0]

/-- Claim C4 (amended): `calculate` has no error path for degenerate
timesteps — whenever the supplied `dt` satisfies the IEEE test
`dt <= 0` (true for every finite `dt ≤ 0` and for `-Infinity`, false
for `NaN` and `+Infinity`), it substitutes the fixed epsilon `0.001`
and proceeds; `NaN` and `+Infinity` are not substituted.  On finite
values the guard agrees with `effDeltaTime`, whose result is always
strictly positive, so the remainder of `calculate` is total. -/
theorem degenerate_dt_substitution :
    (∀ q : ℚ, substDeltaTime (JsVal.num q) = JsVal.num (PIDController.effDeltaTime q)) ∧
    substDeltaTime JsVal.negInf = JsVal.num (1 / 1000) ∧
    substDeltaTime JsVal.nan = JsVal.nan ∧
    substDeltaTime JsVal.posInf = JsVal.posInf ∧
    ∀ q : ℚ, 0 < PIDController.effDeltaTime q := by
  refine ⟨fun q => ?_, rfl, rfl, rfl, fun q => PIDController.effDeltaTime_pos q⟩
  by_cases h : q ≤ 0 <;>
    simp [substDeltaTime, jsLe0, PIDController.effDeltaTime, h]

namespace PIDController

variable {α : Type} [LinearOrderedField α]

theorem storeHistory_invariant (s : PIDController α) (e o p i d : α)
    (h : historyInvariant s) :
    historyInvariant (storeHistory s e o p i d) := by
  obtain ⟨heq, hle⟩ := h
  unfold historyInvariant at *
  unfold storeHistory
  split
  · next hc =>
    simp only [List.length_drop, List.length_append, List.length_cons,
      List.length_nil] at *
    unfold maxHistoryLength at *
    omega
  · next hc =>
    simp only [List.length_append, List.length_cons, List.length_nil] at *
    unfold maxHistoryLength at *
    omega

theorem historyInvariant_applyOp (s : PIDController α) (op : PIDOp α)
    (h : historyInvariant s) :
    historyInvariant (applyOp s op) := by
  cases op with
  | calcOp sp mv dt => exact storeHistory_invariant _ _ _ _ _ _ h
  | gainsOp kp ki kd => exact h
  | paramsOp kp ki kd => exact h
  | resetOp => exact ⟨rfl, Nat.zero_le _⟩
  | storeOp e o p i d => exact storeHistory_invariant _ _ _ _ _ _ h

theorem historyInvariant_run (s : PIDController α) (ops : List (PIDOp α))
    (h : historyInvariant s) :
    historyInvariant (run s ops) := by
  induction ops generalizing s with
  | nil => exact h
  | cons op rest ih => exact ih _ (historyInvariant_applyOp s op h)

end PIDController

/-- Claim C10 (implicit): after any sequence of `calculate`/`update`,
`storeHistory`, gain-setting and `reset` calls, `errorHistory` and
`outputHistory` always have equal length, that length never exceeds
`maxHistoryLength` (1000), and once at capacity each append evicts the
oldest entry of both histories (keeping them exactly at capacity). -/
theorem history_ring_buffer_invariant {α : Type} [LinearOrderedField α]
    (s : PIDController α) (ops : List (PIDOp α))
    (h : PIDController.historyInvariant s) :
    PIDController.historyInvariant (PIDController.run s ops) ∧
    ∀ e o p i d : α,
      s.errorHistory.length = PIDController.maxHistoryLength →
        (PIDController.storeHistory s e o p i d).errorHistory =
            s.errorHistory.drop 1 ++ [e] ∧
          (PIDController.storeHistory s e o p i d).outputHistory =
            s.outputHistory.drop 1 ++ [OutputEntry.mk o p i d] ∧
          (PIDController.storeHistory s e o p i d).errorHistory.length =
            PIDController.maxHistoryLength := by
  refine ⟨PIDController.historyInvariant_run s ops h, fun e o p i d hfull => ?_⟩
  obtain ⟨heq, _⟩ := h
  have hone : 1 ≤ s.errorHistory.length := by
    rw [hfull]; unfold PIDController.maxHistoryLength; omega
  have hcond : PIDController.maxHistoryLength <
      (s.errorHistory ++ [e]).length := by
    simp only [List.length_append, List.length_cons, List.length_nil]
    omega
  unfold PIDController.storeHistory
  rw [if_pos hcond]
  refine ⟨List.drop_append_of_le_length hone,
    List.drop_append_of_le_length (by omega), ?_⟩
  simp only [List.length_drop, List.length_append, List.length_cons,
    List.length_nil]
  omega

/-- Witness for C10 at a concrete state and operation sequence. -/
theorem history_ring_buffer_invariant_witness :
    PIDController.historyInvariant pidQ0 ∧
    PIDController.historyInvariant
      (PIDController.run pidQ0
        [PIDOp.calcOp 1 0 (1 / 50), PIDOp.storeOp 1 2 3 4 5, PIDOp.resetOp]) :=
  ⟨⟨rfl, Nat.zero_le _⟩,
   (history_ring_buffer_invariant pidQ0
     [PIDOp.calcOp 1 0 (1 / 50), PIDOp.storeOp 1 2 3 4 5, PIDOp.resetOp]
     ⟨rfl, Nat.zero_le _⟩).1⟩

namespace BalancingRobot

theorem stepPhysics_disturbanceForce (r : BalancingRobot) (now dt : ℝ) :
    (stepPhysics r now dt).disturbanceForce =
      r.disturbanceForce * disturbanceDecay := rfl

theorem stepPhysics_angle_shape (r : BalancingRobot) (now dt : ℝ) :
    ∃ x : ℝ, (stepPhysics r now dt).angle =
      max (-(Real.pi / 2)) (min (Real.pi / 2) x) := ⟨_, rfl⟩

theorem stepPhysicsV0_angle_shape (r : BalancingRobot) (now dt : ℝ) :
    ∃ x : ℝ, (stepPhysicsV0 r now dt).angle =
      max (-(Real.pi / 2)) (min (Real.pi / 2) x) := ⟨_, rfl⟩

theorem angle_clamp_mem (x : ℝ) :
    -(Real.pi / 2) ≤ max (-(Real.pi / 2)) (min (Real.pi / 2) x) ∧
      max (-(Real.pi / 2)) (min (Real.pi / 2) x) ≤ Real.pi / 2 := by
  refine ⟨le_max_left _ _, max_le ?_ (min_le_left _ _)⟩
  have := Real.pi_pos
  linarith

theorem update_of_pos (r : BalancingRobot) (now : ℝ) (h : r.lastTime < now) :
    update r now =
      stepPhysics { r with lastTime := now } now
        (min ((now - r.lastTime) / 1000) (1 / 10)) := by
  unfold update
  rw [if_neg (not_le.mpr (lt_min (div_pos (by linarith) (by norm_num)) (by norm_num)))]

theorem updateV0_of_pos (r : BalancingRobot) (now : ℝ) (h : r.lastTime < now) :
    updateV0 r now =
      stepPhysicsV0 { r with lastTime := now } now
        (min ((now - r.lastTime) / 1000) (1 / 50)) := by
  unfold updateV0
  rw [if_neg (not_le.mpr (lt_min (div_pos (by linarith) (by norm_num)) (by norm_num)))]

theorem update_disturbanceForce (r : BalancingRobot) (now : ℝ)
    (h : r.lastTime < now) :
    (update r now).disturbanceForce = r.disturbanceForce * disturbanceDecay := by
  rw [update_of_pos r now h, stepPhysics_disturbanceForce]

theorem runUpdates_disturbance (ts : List ℝ) :
    ∀ r : BalancingRobot, stepsValid r ts →
      (runUpdates r ts).disturbanceForce =
        r.disturbanceForce * disturbanceDecay ^ ts.length := by
  induction ts with
  | nil => intro r _; simp [runUpdates]
  | cons t rest ih =>
    intro r hv
    obtain ⟨hvt, hvr⟩ := hv
    have hstep : runUpdates r (t :: rest) = runUpdates (update r t) rest := rfl
    rw [hstep, ih _ hvr, update_disturbanceForce r t hvt, List.length_cons,
      pow_succ]
    ring

end BalancingRobot

/-- Claim C2: for every valid (positive) timestep and any finite torque,
disturbance, and prior state, the `angle` field lies in `[-π/2, π/2]`
after every call to `BalancingRobot.update` — in both the enhanced
(`part_001`) and the legacy (`part_000`) variant.  The timestep of a
call at clock reading `now` is positive exactly when `now` is later than
the stored `lastTime`. -/
theorem step_angle_within_clamp (r : BalancingRobot) (now : ℝ)
    (h : r.lastTime < now) :
    (-(Real.pi / 2) ≤ (BalancingRobot.update r now).angle ∧
      (BalancingRobot.update r now).angle ≤ Real.pi / 2) ∧
    (-(Real.pi / 2) ≤ (BalancingRobot.updateV0 r now).angle ∧
      (BalancingRobot.updateV0 r now).angle ≤ Real.pi / 2) := by
  constructor
  · rw [BalancingRobot.update_of_pos r now h]
    obtain ⟨x, hx⟩ := BalancingRobot.stepPhysics_angle_shape
      { r with lastTime := now } now (min ((now - r.lastTime) / 1000) (1 / 10))
    rw [hx]
    exact BalancingRobot.angle_clamp_mem x
  · rw [BalancingRobot.updateV0_of_pos r now h]
    obtain ⟨x, hx⟩ := BalancingRobot.stepPhysicsV0_angle_shape
      { r with lastTime := now } now (min ((now - r.lastTime) / 1000) (1 / 50))
    rw [hx]
    exact BalancingRobot.angle_clamp_mem x

/-- Witness for C2 at a concrete robot and clock reading. -/
theorem step_angle_within_clamp_witness :
    robot0.lastTime < 16 ∧
    (-(Real.pi / 2) ≤ (BalancingRobot.update robot0 16).angle ∧
      (BalancingRobot.update robot0 16).angle ≤ Real.pi / 2) ∧
    (-(Real.pi / 2) ≤ (BalancingRobot.updateV0 robot0 16).angle ∧
      (BalancingRobot.updateV0 robot0 16).angle ≤ Real.pi / 2) :=
  ⟨by norm_num [robot0, BalancingRobot.init],
   (step_angle_within_clamp robot0 16 (by norm_num [robot0, BalancingRobot.init])).1,
   (step_angle_within_clamp robot0 16 (by norm_num [robot0, BalancingRobot.init])).2⟩

/-- Claim C5: when the derived timestep of a physics step is
non-positive (the clock reading is not later than `lastTime`), the step
is a no-op on every physical state field — `angle`, `angularVelocity`,
`angularAcceleration`, `position`, `velocity`, `torque`,
`disturbanceForce` and `trail` are unchanged — in both variants, and no
error is raised (the functions are total).  The non-finite cases of the
guard are covered exactly by the IEEE tests embedded in
`updateGuardV1`/`updateGuardV0`: the enhanced guard also fires on a
`NaN` or `-Infinity` timestep; `+Infinity` cannot reach the guard since
the timestep is first capped by `Math.min` with a finite bound. -/
theorem nonpositive_dt_step_noop (r : BalancingRobot) (now : ℝ)
    (h : now ≤ r.lastTime) :
    ((BalancingRobot.update r now).angle = r.angle ∧
      (BalancingRobot.update r now).angularVelocity = r.angularVelocity ∧
      (BalancingRobot.update r now).angularAcceleration = r.angularAcceleration ∧
      (BalancingRobot.update r now).position = r.position ∧
      (BalancingRobot.update r now).velocity = r.velocity ∧
      (BalancingRobot.update r now).torque = r.torque ∧
      (BalancingRobot.update r now).disturbanceForce = r.disturbanceForce ∧
      (BalancingRobot.update r now).trail = r.trail) ∧
    ((BalancingRobot.updateV0 r now).angle = r.angle ∧
      (BalancingRobot.updateV0 r now).angularVelocity = r.angularVelocity ∧
      (BalancingRobot.updateV0 r now).angularAcceleration = r.angularAcceleration ∧
      (BalancingRobot.updateV0 r now).position = r.position ∧
      (BalancingRobot.updateV0 r now).velocity = r.velocity ∧
      (BalancingRobot.updateV0 r now).torque = r.torque ∧
      (BalancingRobot.updateV0 r now).disturbanceForce = r.disturbanceForce ∧
      (BalancingRobot.updateV0 r now).trail = r.trail) ∧
    (updateGuardV1 JsVal.nan = true ∧ updateGuardV1 JsVal.negInf = true ∧
      updateGuardV0 JsVal.negInf = true) := by
  have hd : (now - r.lastTime) / 1000 ≤ 0 :=
    div_nonpos_iff.mpr (Or.inr ⟨by linarith, by norm_num⟩)
  have h1 : min ((now - r.lastTime) / 1000) ((1 : ℝ) / 10) ≤ 0 :=
    le_trans (min_le_left _ _) hd
  have h2 : min ((now - r.lastTime) / 1000) ((1 : ℝ) / 50) ≤ 0 :=
    le_trans (min_le_left _ _) hd
  unfold BalancingRobot.update BalancingRobot.updateV0
  rw [if_pos h1, if_pos h2]
  exact ⟨⟨rfl, rfl, rfl, rfl, rfl, rfl, rfl, rfl⟩,
    ⟨rfl, rfl, rfl, rfl, rfl, rfl, rfl, rfl⟩, rfl, rfl, rfl⟩

/-- Witness for C5 at a concrete robot and stale clock reading. -/
theorem nonpositive_dt_step_noop_witness :
    (-5 : ℝ) ≤ robot0.lastTime ∧
    ((BalancingRobot.update robot0 (-5)).angle = robot0.angle ∧
      (BalancingRobot.update robot0 (-5)).trail = robot0.trail) :=
  ⟨by norm_num [robot0, BalancingRobot.init],
   (nonpositive_dt_step_noop robot0 (-5)
      (by norm_num [robot0, BalancingRobot.init])).1.1,
   (nonpositive_dt_step_noop robot0 (-5)
      (by norm_num [robot0, BalancingRobot.init])).1.2.2.2.2.2.2.2⟩

/-- Claim C7: after `applyDisturbance(5)` with no further injection, the
`disturbanceForce` seen after `n` valid physics steps equals
`5 * disturbanceDecay ^ n` (with `disturbanceDecay = 0.95 = 19/20`),
since each passing step multiplies the field by the decay factor. -/
theorem disturbance_decay_geometric (r : BalancingRobot) (ts : List ℝ)
    (h : BalancingRobot.stepsValid (BalancingRobot.applyDisturbance r 5) ts) :
    (BalancingRobot.runUpdates (BalancingRobot.applyDisturbance r 5) ts).disturbanceForce =
      5 * BalancingRobot.disturbanceDecay ^ ts.length := by
  rw [BalancingRobot.runUpdates_disturbance ts _ h]
  rfl

/-- Witness for C7: one valid step after the injection. -/
theorem disturbance_decay_geometric_witness :
    BalancingRobot.stepsValid (BalancingRobot.applyDisturbance robot0 5) [20] ∧
    (BalancingRobot.runUpdates (BalancingRobot.applyDisturbance robot0 5) [20]).disturbanceForce =
      5 * BalancingRobot.disturbanceDecay ^ (1 : ℕ) :=
  ⟨⟨by norm_num [robot0, BalancingRobot.init, BalancingRobot.applyDisturbance], trivial⟩,
   disturbance_decay_geometric robot0 [20]
     ⟨by norm_num [robot0, BalancingRobot.init, BalancingRobot.applyDisturbance], trivial⟩⟩

/-- Counterexample for C8 as frozen: in the legacy variant
(`src/unnamed/part_000`), `reset()` sets
`this.angle = Math.random() * 0.2 - 0.1`, so calling `reset` twice in a
row (with random draws `0` and then `1/2`) does not yield the state a
single `reset` produced: the angle after two resets is `0` while after
one it is `-1/10`. -/
theorem resetV0_random_not_idempotent :
    BalancingRobot.resetV0 (BalancingRobot.resetV0 robot0 0 0) (1 / 2) 0 ≠
      BalancingRobot.resetV0 robot0 0 0 ∧
    (BalancingRobot.resetV0 (BalancingRobot.resetV0 robot0 0 0) (1 / 2) 0).angle ≠
      (BalancingRobot.resetV0 robot0 0 0).angle := by
  have hangle : (BalancingRobot.resetV0 (BalancingRobot.resetV0 robot0 0 0) (1 / 2) 0).angle ≠
      (BalancingRobot.resetV0 robot0 0 0).angle := by
    show (1 / 2 : ℝ) * (1 / 5) - 1 / 10 ≠ (0 : ℝ) * (1 / 5) - 1 / 10
    norm_num
  exact ⟨fun hEq => hangle (by rw [hEq]), hangle⟩

/-- Claim C8 (amended): `reset` is idempotent for the `PIDController`
(exact state equality) and for the canonical enhanced `BalancingRobot`
(all spec-level state fields and the trail; the wall-clock `lastTime`
bookkeeping necessarily carries the time of the most recent call).  For
the legacy variant, idempotence holds on every field except `angle`,
which is re-randomized on each call: after a second `reset` the angle is
determined by the fresh random draw alone. -/
theorem reset_idempotent_amended :
    (∀ (r : BalancingRobot) (t1 t2 : ℝ),
      BalancingRobot.physStateOf
          (BalancingRobot.reset (BalancingRobot.reset r t1) t2) =
        BalancingRobot.physStateOf (BalancingRobot.reset r t1) ∧
      (BalancingRobot.reset (BalancingRobot.reset r t1) t2).trail =
        (BalancingRobot.reset r t1).trail) ∧
    (∀ s : PIDController ℚ,
      PIDController.reset (PIDController.reset s) = PIDController.reset s) ∧
    (∀ (r : BalancingRobot) (a b t1 t2 : ℝ),
      BalancingRobot.physStateExceptAngle
          (BalancingRobot.resetV0 (BalancingRobot.resetV0 r a t1) b t2) =
        BalancingRobot.physStateExceptAngle (BalancingRobot.resetV0 r a t1) ∧
      (BalancingRobot.resetV0 (BalancingRobot.resetV0 r a t1) b t2).trail =
        (BalancingRobot.resetV0 r a t1).trail ∧
      (BalancingRobot.resetV0 (BalancingRobot.resetV0 r a t1) b t2).angle =
        b * (1 / 5) - 1 / 10) :=
  ⟨fun r t1 t2 => ⟨rfl, rfl⟩, fun s => rfl,
   fun r a b t1 t2 => ⟨rfl, rfl, rfl⟩⟩

/-- Claim C6: determinism of the per-tick loop.  The tick
(`animate`: physics `update`, then `calculate` on the measured
`angleDegrees`, then `setTorque`) is a pure function of the previous
state and the externally supplied per-tick inputs (clock reading,
timestep, gain changes, disturbance injections), so two runs from equal
initial states on equal input sequences produce identical state
trajectories. -/
theorem simulation_deterministic (s1 s2 : SimState)
    (ins1 ins2 : List TickInput) (hs : s1 = s2) (hi : ins1 = ins2) :
    trajectory s1 ins1 = trajectory s2 ins2 := by
  rw [hs, hi]

/-- Witness for C6 at a concrete state and input sequence. -/
theorem simulation_deterministic_witness :
    trajectory simState0 [tickInput0] = trajectory simState0 [tickInput0] :=
  simulation_deterministic simState0 simState0 [tickInput0] [tickInput0] rfl rfl

namespace PIDController

theorem calculate_zero_error (s : PIDController ℚ) (pv dt : ℚ)
    (h1 : s.previousError = 0) (h2 : s.integral = 0)
    (h3 : s.filteredDerivative = 0) (h4 : s.lastOutput = 0) :
    (calculate s pv pv dt).2 = 0 ∧
    (calculate s pv pv dt).1.previousError = 0 ∧
    (calculate s pv pv dt).1.integral = 0 ∧
    (calculate s pv pv dt).1.filteredDerivative = 0 ∧
    (calculate s pv pv dt).1.lastOutput = 0 := by
  have he : errorOf pv pv = 0 := sub_self pv
  have hi : newIntegral s pv pv dt = 0 := by
    unfold newIntegral clampI integralMin integralMax
    rw [he, h2, zero_mul, add_zero]
    rw [min_eq_right (by norm_num : (0 : ℚ) ≤ 50)]
    rw [max_eq_right (by norm_num : (-50 : ℚ) ≤ 0)]
  have hf : newFilteredDerivative s pv pv dt = 0 := by
    unfold newFilteredDerivative
    rw [he, h1, h3]
    split <;> simp
  have hd : derivativeTerm s pv pv dt = 0 := by
    unfold derivativeTerm
    rw [hf]
    split <;> simp
  have hraw : rawOutput s pv pv dt = 0 := by
    unfold rawOutput
    rw [he, hi, hd]
    ring
  have hmc : (0 : ℚ) ≤ maxRate * effDeltaTime dt :=
    mul_nonneg (by unfold maxRate; norm_num) (effDeltaTime_pos dt).le
  have hout : outputOf s pv pv dt = 0 := by
    unfold outputOf slewOutput outputMin outputMax
    rw [hraw, h4]
    rw [min_eq_right (by linarith : (0 : ℚ) ≤ 0 + maxRate * effDeltaTime dt)]
    rw [max_eq_right (by linarith : (0 : ℚ) - maxRate * effDeltaTime dt ≤ 0)]
    rw [min_eq_right (by norm_num : (0 : ℚ) ≤ 100)]
    rw [max_eq_right (by norm_num : (-100 : ℚ) ≤ 0)]
  refine ⟨?_, ?_, ?_, ?_, ?_⟩
  · rw [calculate_snd, hout]
  · rw [calculate_fst_previousError, he]
  · rw [calculate_fst_integral, hi]
  · rw [calculate_fst_filteredDerivative, hf]
  · rw [calculate_fst_lastOutput, hout]

theorem tuneIter_zero (i lastCross : ℕ) (peaks : List Peak) :
    tuneIter i lastCross peaks 0 0 = (peaks, lastCross) := by
  unfold tuneIter
  rw [if_neg (by norm_num)]

theorem autoTuneGo_zero (pv : ℚ) (c : ℕ) :
    ∀ (fuel i lastCross : ℕ) (s : PIDController ℚ) (peaks : List Peak),
      s.previousError = 0 → s.integral = 0 → s.filteredDerivative = 0 →
      s.lastOutput = 0 →
      (autoTuneGo pv pv c fuel i s peaks 0 lastCross).2 = peaks ∧
      (autoTuneGo pv pv c fuel i s peaks 0 lastCross).1.kp = s.kp ∧
      (autoTuneGo pv pv c fuel i s peaks 0 lastCross).1.ki = s.ki ∧
      (autoTuneGo pv pv c fuel i s peaks 0 lastCross).1.kd = s.kd := by
  intro fuel
  induction fuel with
  | zero => intro i lastCross s peaks _ _ _ _; exact ⟨rfl, rfl, rfl, rfl⟩
  | succ n ih =>
    intro i lastCross s peaks h1 h2 h3 h4
    obtain ⟨ho, hp, hi2, hf, hl⟩ := calculate_zero_error s pv (1 / 50) h1 h2 h3 h4
    rw [autoTuneGo, ho, tuneIter_zero]
    split
    · exact ⟨rfl, calculate_fst_kp s pv pv (1 / 50),
        calculate_fst_ki s pv pv (1 / 50), calculate_fst_kd s pv pv (1 / 50)⟩
    · obtain ⟨g1, g2, g3, g4⟩ :=
        ih (i + 1) lastCross (calculate s pv pv (1 / 50)).1 peaks hp hi2 hf hl
      refine ⟨g1, ?_, ?_, ?_⟩
      · rw [g2, calculate_fst_kp]
      · rw [g3, calculate_fst_ki]
      · rw [g4, calculate_fst_kd]

theorem autoTuneGo_gains (sp pv : ℚ) (c : ℕ) :
    ∀ (fuel i lastCross : ℕ) (s : PIDController ℚ) (peaks : List Peak)
      (lastOut : ℚ),
      (autoTuneGo sp pv c fuel i s peaks lastOut lastCross).1.kp = s.kp ∧
      (autoTuneGo sp pv c fuel i s peaks lastOut lastCross).1.ki = s.ki ∧
      (autoTuneGo sp pv c fuel i s peaks lastOut lastCross).1.kd = s.kd := by
  intro fuel
  induction fuel with
  | zero => intro i lastCross s peaks lastOut; exact ⟨rfl, rfl, rfl⟩
  | succ n ih =>
    intro i lastCross s peaks lastOut
    rw [autoTuneGo]
    split
    · exact ⟨calculate_fst_kp s sp pv (1 / 50),
        calculate_fst_ki s sp pv (1 / 50), calculate_fst_kd s sp pv (1 / 50)⟩
    · obtain ⟨g1, g2, g3⟩ := ih (i + 1)
        (tuneIter i lastCross peaks lastOut (calculate s sp pv (1 / 50)).2).2
        (calculate s sp pv (1 / 50)).1
        (tuneIter i lastCross peaks lastOut (calculate s sp pv (1 / 50)).2).1
        (calculate s sp pv (1 / 50)).2
      refine ⟨?_, ?_, ?_⟩
      · rw [g1, calculate_fst_kp]
      · rw [g2, calculate_fst_ki]
      · rw [g3, calculate_fst_kd]

end PIDController

/-- Claim C9: running `autoTune` with a setpoint equal to the (constant)
process variable gives zero error at every experiment step, so the
output stays `0`, no zero crossing is ever recorded, fewer than 4 peaks
are collected, and the call returns `success: false` while leaving the
gains `kp`, `ki`, `kd` exactly as they were.  The hypotheses say the
live accumulators are at their reset/constructor values (`0`), which is
the state in which the experiment of the claim is run.  In addition,
for an arbitrary controller state: whenever `autoTune` reports
`success: false`, the gains are left exactly as they were. -/
theorem autoTune_zero_error_no_gain_change (s : PIDController ℚ) (pv : ℚ)
    (h1 : s.previousError = 0) (h2 : s.integral = 0)
    (h3 : s.filteredDerivative = 0) (h4 : s.lastOutput = 0) :
    ((PIDController.autoTune s pv pv 5).2.success = false ∧
      (PIDController.autoTune s pv pv 5).1.kp = s.kp ∧
      (PIDController.autoTune s pv pv 5).1.ki = s.ki ∧
      (PIDController.autoTune s pv pv 5).1.kd = s.kd) ∧
    ∀ (t : PIDController ℚ) (pv2 sp2 : ℚ) (c : ℕ),
      (PIDController.autoTune t pv2 sp2 c).2.success = false →
        (PIDController.autoTune t pv2 sp2 c).1.kp = t.kp ∧
        (PIDController.autoTune t pv2 sp2 c).1.ki = t.ki ∧
        (PIDController.autoTune t pv2 sp2 c).1.kd = t.kd := by
  constructor
  · obtain ⟨hpk, hkp, hki, hkd⟩ :=
      PIDController.autoTuneGo_zero pv 5 1000 0 0 s [] h1 h2 h3 h4
    unfold PIDController.autoTune
    rw [hpk]
    unfold PIDController.applyZN PIDController.tuneSummary
    rw [if_neg (by norm_num : ¬ 4 ≤ ([] : List Peak).length)]
    exact ⟨rfl, hkp, hki, hkd⟩
  · intro t pv2 sp2 c hsucc
    have h4n : ¬ 4 ≤ (PIDController.autoTuneGo sp2 pv2 c 1000 0 t [] 0 0).2.length :=
      of_decide_eq_false hsucc
    obtain ⟨g1, g2, g3⟩ := PIDController.autoTuneGo_gains sp2 pv2 c 1000 0 0 t [] 0
    unfold PIDController.autoTune
    unfold PIDController.applyZN
    rw [if_neg h4n]
    exact ⟨g1, g2, g3⟩

/-- Witness for C9 at the constructor-default controller. -/
theorem autoTune_zero_error_no_gain_change_witness :
    (pidQ0.previousError = 0 ∧ pidQ0.integral = 0 ∧
      pidQ0.filteredDerivative = 0 ∧ pidQ0.lastOutput = 0) ∧
    ((PIDController.autoTune pidQ0 7 7 5).2.success = false ∧
      (PIDController.autoTune pidQ0 7 7 5).1.kp = pidQ0.kp ∧
      (PIDController.autoTune pidQ0 7 7 5).1.ki = pidQ0.ki ∧
      (PIDController.autoTune pidQ0 7 7 5).1.kd = pidQ0.kd) :=
  ⟨⟨rfl, rfl, rfl, rfl⟩,
   (autoTune_zero_error_no_gain_change pidQ0 7 rfl rfl rfl rfl).1⟩
